import Mathlib

/-!
# Verification of the PlotJuggler CSV timestamp-parsing core

Shallow embedding of plotjuggler_plugins/DataLoadCSV/timestamp_parsing.cpp
(namespace PJ::CSV).  Cell text is modelled as List Char; C++ doubles are
modelled as exact rationals (every concrete value handled by the theorems
below is exactly representable in binary64, and equalities proved here are
between identical computations on both sides); std::optional becomes Option;
a thrown-and-caught exception becomes a none that the caller's catch block
turns into the documented fallback.  The third-party calendar primitive
(date::parse into a date::sys_time, used via operator>>) is embedded as a
strptime-style matcher over the format strings actually occurring in the
file, with the library's field-range validation and civil-calendar epoch
arithmetic; stream extraction does not require the whole input string to be
consumed, which the embedding reflects by returning the unconsumed suffix.
The declarations of ColumnType and ColumnTypeInfo live in the (absent)
header timestamp_parsing.h and are reconstructed from the spec's data model
(section 3: tag set, format string, has_fractional flag, with the defaults
the .cpp relies on).
-/

set_option maxRecDepth 4000

namespace PJ.CSV

/-- Strings are lists of characters. -/
abbrev Str := List Char

/-- Model of C std::isdigit on the default locale (ASCII digits). -/
def isDigitC (c : Char) : Bool := 48 ≤ c.toNat && c.toNat ≤ 57

/-- Model of C std::isspace on the default locale:
space, tab, newline, vertical tab, form feed, carriage return. -/
def isSpaceC (c : Char) : Bool := c.toNat == 32 || (9 ≤ c.toNat && c.toNat ≤ 13)

/-- The whitespace set of Trim: space, tab, carriage return, newline. -/
def isTrimWs (c : Char) : Bool :=
  c.toNat == 32 || c.toNat == 9 || c.toNat == 13 || c.toNat == 10

/-- Hexadecimal digit (0-9, A-F, a-f), as accepted by strtoll in base 16. -/
def isHexDigitC (c : Char) : Bool :=
  (48 ≤ c.toNat && c.toNat ≤ 57) || (65 ≤ c.toNat && c.toNat ≤ 70) ||
    (97 ≤ c.toNat && c.toNat ≤ 102)

/-- Numeric value of a hexadecimal digit. -/
def hexDigitVal (c : Char) : Nat :=
  if c.toNat ≤ 57 then c.toNat - 48
  else if c.toNat ≤ 70 then c.toNat - 55
  else c.toNat - 87

/-- Value of a decimal digit string read left to right, as the C scanning
loops accumulate it (value := value * 10 + digit). -/
def digitsValNat (l : Str) : Nat :=
  l.foldl (fun a c => a * 10 + (c.toNat - 48)) 0

/-- Value of a hexadecimal digit string read left to right. -/
def hexValNat (l : Str) : Nat :=
  l.foldl (fun a c => a * 16 + hexDigitVal c) 0

/-- Trim: the substring between the first and the last character that is
not a space, tab, carriage return or newline; empty if none exists
(timestamp_parsing.cpp lines 8-17, via find_first_not_of /
find_last_not_of). -/
def Trim (s : Str) : Str :=
  (((s.dropWhile isTrimWs).reverse).dropWhile isTrimWs).reverse

/-- Splits a leading sign off a string, returning the sign as an integer
factor and the rest (the behaviour of strtoll and of the
scientific-notation exponent, which both consume an explicit plus). -/
def signSplitPlus (s : Str) : Int × Str :=
  match s with
  | [] => (1, [])
  | c :: r => if c = '-' then (-1, r) else if c = '+' then (1, r) else (1, c :: r)

/-- Model of std::stoll(str) (base 10): skip leading whitespace, optional
sign, a nonempty maximal run of decimal digits (parsing stops at the first
non-digit), with the int64 range check; none models the thrown
std::invalid_argument / std::out_of_range. -/
def stoll (s : Str) : Option Int :=
  let s1 := s.dropWhile isSpaceC
  let p := signSplitPlus s1
  let digs := p.2.takeWhile isDigitC
  if digs = [] then none
  else
    let v : Int := p.1 * (digitsValNat digs : Int)
    if v < -(2 ^ 63) ∨ (2 ^ 63 - 1 : Int) < v then none else some v

/-- Model of std::stoll(str, nullptr, 16): skip leading whitespace,
optional sign, an optional 0x / 0X prefix (consumed only when followed by a
hexadecimal digit, as strtoll does), then a nonempty maximal run of
hexadecimal digits, with the int64 range check. -/
def stollHex (s : Str) : Option Int :=
  let s1 := s.dropWhile isSpaceC
  let p := signSplitPlus s1
  let s2 :=
    match p.2 with
    | '0' :: x :: r =>
      if (x = 'x' ∨ x = 'X') ∧ isHexDigitC (r.headD ' ') then r else p.2
    | l => l
  let digs := s2.takeWhile isHexDigitC
  if digs = [] then none
  else
    let v : Int := p.1 * (hexValNat digs : Int)
    if v < -(2 ^ 63) ∨ (2 ^ 63 - 1 : Int) < v then none else some v

/-- The exact rational sgn * (ipart.fpart) * 10 ^ e, built with mkRat so
that it evaluates by kernel reduction (sgn: the mantissa sign, mantNum:
all mantissa digits as one integer, fracLen: number of fraction digits). -/
def decValue (sgn mantNum : Int) (fracLen : Nat) (e : Int) : ℚ :=
  if 0 ≤ e then mkRat (sgn * mantNum * 10 ^ e.toNat) (10 ^ fracLen)
  else mkRat (sgn * mantNum) (10 ^ fracLen * 10 ^ (-e).toNat)

/-- The locale-independent decimal parse behind toDouble
(QLocale::c().toDouble): optional sign, integer digits, optional fraction,
optional scientific exponent, entire string consumed, at least one mantissa
digit.  The numeric value is kept as an exact rational. -/
def parseDecimal (s : Str) : Option ℚ :=
  let p := signSplitPlus s
  let ip := p.2.takeWhile isDigitC
  let r1 := p.2.drop ip.length
  let fp := match r1 with
            | '.' :: rest => rest.takeWhile isDigitC
            | _ => []
  let r2 := match r1 with
            | '.' :: rest => rest.drop fp.length
            | _ => r1
  if ip = [] ∧ fp = [] then none
  else
    let mantNum : Int := (digitsValNat ip : Int) * 10 ^ fp.length + (digitsValNat fp : Int)
    match r2 with
    | [] => some (decValue p.1 mantNum fp.length 0)
    | e :: rest =>
      if e = 'e' ∨ e = 'E' then
        let q := signSplitPlus rest
        let ed := q.2.takeWhile isDigitC
        if ed = [] ∨ q.2.drop ed.length ≠ [] then none
        else some (decValue p.1 mantNum fp.length (q.1 * (digitsValNat ed : Int)))
      else none

/-- toDouble (timestamp_parsing.cpp lines 19-29): replace every comma by
a dot (European decimal separator), then parse with the locale-independent
primitive. -/
def toDouble (s : Str) : Option ℚ :=
  parseDecimal (s.map (fun c => if c = ',' then '.' else c))

/-! ## Data model (reconstructed from the spec, section 3) -/

/-- Column type tags (spec section 3; the closed enum from the header). -/
inductive ColumnType where
  | STRING
  | NUMBER
  | HEX
  | EPOCH_SECONDS
  | EPOCH_MILLIS
  | EPOCH_MICROS
  | EPOCH_NANOS
  | DATETIME
deriving DecidableEq

/-- Cached detection result (spec section 3): type tag, matched format
(meaningful only for DATETIME, default empty), fractional-second flag
(default false).  These defaults are the ones DetectColumnType relies on
when it returns without touching the remaining fields. -/
structure ColumnTypeInfo where
  type : ColumnType := ColumnType.STRING
  format : Str := []
  has_fractional : Bool := false
deriving DecidableEq

/-- Transient result of CheckNumeric (timestamp_parsing.cpp lines 115-120). -/
structure NumericInfo where
  is_number : Bool := false
  has_decimal : Bool := false
  has_exponent : Bool := false
deriving DecidableEq

/-! ## NumericClassifier (CheckNumeric, lines 122-186) -/

/-- State of CheckNumeric's scanning loop. -/
structure CNState where
  is_number : Bool := true
  has_decimal : Bool := false
  has_exponent : Bool := false
  has_digit : Bool := false
deriving DecidableEq

/-- The character-by-character loop of CheckNumeric (lines 129-174).
prev is the previously scanned character (str[i-1]; none at i = 0).
A branch that sets is_number to false and breaks is modelled by
returning the state without scanning further. -/
def cnScan (st : CNState) (prev : Option Char) : Str → CNState
  | [] => st
  | c :: rest =>
    if c = 'e' ∨ c = 'E' then
      if st.has_exponent then { st with is_number := false }
      else cnScan { st with has_exponent := true } (some c) rest
    else if c = '-' ∨ c = '+' then
      if prev = none ∨ prev = some 'e' ∨ prev = some 'E' then cnScan st (some c) rest
      else { st with is_number := false }
    else if c = '.' ∨ c = ',' then
      if st.has_decimal ∨ st.has_exponent then { st with is_number := false }
      else cnScan { st with has_decimal := true } (some c) rest
    else if isDigitC c then cnScan { st with has_digit := true } (some c) rest
    else { st with is_number := false }

/-- CheckNumeric with the final str.back() access made explicit: when the
scan left is_number true, the code reads the last character of its argument
unconditionally (line 178).  On the empty string that read is out of
bounds; this is modelled as none. -/
def CheckNumericOpt (str : Str) : Option NumericInfo :=
  let st := cnScan {} none str
  if st.is_number then
    match str.getLast? with
    | none => none
    | some last =>
      if ¬st.has_digit ∨ last = 'e' ∨ last = 'E' ∨ last = '+' ∨ last = '-' then
        some { is_number := false, has_decimal := st.has_decimal,
               has_exponent := st.has_exponent }
      else
        some { is_number := true, has_decimal := st.has_decimal,
               has_exponent := st.has_exponent }
  else
    some { is_number := false, has_decimal := st.has_decimal,
           has_exponent := st.has_exponent }

/-- CheckNumeric as used by its callers, which always pass a nonempty
trimmed string (so the default never surfaces; see the safety theorem). -/
def CheckNumeric (str : Str) : NumericInfo :=
  (CheckNumericOpt str).getD {}

/-! ## EpochClassifier (lines 40-42 and 189-225) -/

/-- Lower bound of the plausible epoch window, in seconds (July 14, 2014). -/
def EPOCH_FIRST : Int := 1400000000

/-- Upper bound of the plausible epoch window, in seconds (May 18, 2033). -/
def EPOCH_LAST : Int := 2000000000

/-- The open epoch window scaled by a precision factor: the strict
magnitude band (EPOCH_FIRST * scale, EPOCH_LAST * scale). -/
def inEpochWindowB (t scale : Int) : Bool :=
  decide (EPOCH_FIRST * scale < t ∧ t < EPOCH_LAST * scale)

/-- DetectEpochType (lines 189-208): strict magnitude windows tested in
descending precision; a value in no window is a plain number. -/
def DetectEpochType (ts : Int) : ColumnType :=
  if EPOCH_FIRST * 1000000000 < ts ∧ ts < EPOCH_LAST * 1000000000 then
    ColumnType.EPOCH_NANOS
  else if EPOCH_FIRST * 1000000 < ts ∧ ts < EPOCH_LAST * 1000000 then
    ColumnType.EPOCH_MICROS
  else if EPOCH_FIRST * 1000 < ts ∧ ts < EPOCH_LAST * 1000 then
    ColumnType.EPOCH_MILLIS
  else if EPOCH_FIRST < ts ∧ ts < EPOCH_LAST then
    ColumnType.EPOCH_SECONDS
  else
    ColumnType.NUMBER

/-- EpochToSeconds (lines 211-225): scale to seconds by the type's factor
(the switch's default case, including NUMBER, returns the value itself).
The C++ double arithmetic is modelled exactly in ℚ. -/
def EpochToSeconds (ts : Int) (type : ColumnType) : ℚ :=
  match type with
  | ColumnType.EPOCH_NANOS => mkRat ts 1000000000
  | ColumnType.EPOCH_MICROS => mkRat ts 1000000
  | ColumnType.EPOCH_MILLIS => mkRat ts 1000
  | _ => mkRat ts 1

/-! ## AmbiguousDateResolver (IsDayFirstFormat, lines 227-259) -/

/-- The two digit-accumulation loops of IsDayFirstFormat:
reads a maximal run of leading digits into an accumulator. -/
def scanNum : Str → Nat → Nat × Str
  | [], acc => (acc, [])
  | c :: rest, acc =>
    if isDigitC c then scanNum rest (acc * 10 + (c.toNat - 48)) else (acc, c :: rest)

/-- IsDayFirstFormat (lines 227-259): read the first two numeric fields
(skipping one separator between them); first field in (12, 31] means
day-first; otherwise second field in (12, 31] means month-first; otherwise
default to day-first.  (The C int accumulator is modelled as unbounded; a
field of more than nine digits overflows int in C++, which is undefined.) -/
def IsDayFirstFormat (s : Str) (separator : Char) : Bool :=
  let p1 := scanNum s 0
  let r2 := match p1.2 with
            | c :: rest => if c = separator then rest else c :: rest
            | [] => []
  let p2 := scanNum r2 0
  if 12 < p1.1 ∧ p1.1 ≤ 31 then true
  else if 12 < p2.1 ∧ p2.1 ≤ 31 then false
  else true

/-- Specification-side reading of the resolver's two fields: the first
field is the maximal run of leading digits, the second the maximal digit
run after skipping exactly one separator. -/
def dateFields (s : Str) (sep : Char) : Nat × Nat :=
  let f1 := s.takeWhile isDigitC
  let r1 := s.dropWhile isDigitC
  let r2 := match r1 with
            | c :: rest => if c = sep then rest else c :: rest
            | [] => []
  (digitsValNat f1, digitsValNat (r2.takeWhile isDigitC))

/-! ## FractionalSecondSplitter (ExtractFractionalSeconds, lines 46-93) -/

/-- Index of the last occurrence of a character (std::string::rfind). -/
def rfindIdx (ch : Char) (s : Str) : Option Nat :=
  (s.reverse.findIdx? (fun c => c = ch)).map (fun i => s.length - 1 - i)

/-- Pad a fractional digit run on the right with zeros to nine digits, or
truncate it to its first nine digits (lines 73-80). -/
def pad9 (run : Str) : Str :=
  if run.length < 9 then run ++ List.replicate (9 - run.length) '0' else run.take 9

/-- ExtractFractionalSeconds (lines 46-93): splits a trailing fractional-
second suffix (a digit run after the last dot, provided that dot comes
after the last colon) off the string; the digit run is padded or truncated
to exactly nine digits and parsed as a nanosecond count (a failed parse is
swallowed and treated as zero, line 87).  Returns the string with the
fractional run removed, and the nanoseconds. -/
def ExtractFractionalSeconds (input : Str) : Str × Int :=
  match rfindIdx '.' input, rfindIdx ':' input with
  | some dot, some colon =>
    if dot ≤ colon then (input, 0)
    else
      let fracStart := dot + 1
      let run := (input.drop fracStart).takeWhile isDigitC
      if run = [] then (input, 0)
      else
        (input.take dot ++ input.drop (fracStart + run.length), (stoll (pad9 run)).getD 0)
  | _, _ => (input, 0)

/-- Specification-side reading of the splitter: the digit run after the
last dot. -/
def fracRunOf (input : Str) : Str :=
  match rfindIdx '.' input with
  | none => []
  | some dot => (input.drop (dot + 1)).takeWhile isDigitC

/-- Specification-side reading of the splitter: the nanosecond count
obtained by right-padding the digit run with zeros to nine digits or
truncating it to its first nine digits. -/
def padTrunc9Val (run : Str) : Int := (digitsValNat (pad9 run) : Int)

/-- The condition under which the splitter leaves its input unchanged with
zero nanoseconds: no dot, no colon, the last dot not after the last colon,
or an empty digit run after the dot. -/
def efsNoFrac (input : Str) : Bool :=
  match rfindIdx '.' input, rfindIdx ':' input with
  | some dot, some colon =>
    decide (dot ≤ colon) || ((input.drop (dot + 1)).takeWhile isDigitC).isEmpty
  | _, _ => true

/-! ## Calendar parsing primitive (date::parse via operator>>)

The third-party primitive used by TryParseFormat and DetectColumnType's
try_format lambda.  It matches the format string against a prefix of the
input (istream extraction does not demand that the whole string be
consumed), reads each conversion specifier as a bounded digit run exactly
as the date library does (%Y up to four digits with an optional sign, the
two-digit fields up to two digits, %z a sign then hours and optional
minutes), and finally validates the broken-down fields the way
date::from_stream for sys_time does: the year-month-day must be a valid
civil date and the time of day must be in the conventional range,
otherwise the stream fails. -/

/-- Broken-down fields produced by the matcher.  Date parts are optional:
a format that never sets one leaves the library's not-a-date sentinel,
which fails validation. -/
structure DTFields where
  y : Option Int := none
  m : Option Nat := none
  d : Option Nat := none
  H : Nat := 0
  M : Nat := 0
  S : Nat := 0
  offMin : Int := 0

/-- Take at most w leading decimal digits. -/
def takeDigitsW (w : Nat) : Str → Str × Str
  | [] => ([], [])
  | c :: rest =>
    match w with
    | 0 => ([], c :: rest)
    | w' + 1 =>
      if isDigitC c then
        let p := takeDigitsW w' rest
        (c :: p.1, p.2)
      else ([], c :: rest)

/-- Read an unsigned number of at most w digits (at least one). -/
def readNatW (w : Nat) (s : Str) : Option (Nat × Str) :=
  let p := takeDigitsW w s
  if p.1 = [] then none else some (digitsValNat p.1, p.2)

/-- One pass of the format matcher: walks the format string, consuming
input; returns the collected fields and the unconsumed input suffix. -/
def runFmt : Str → Str → DTFields → Option (DTFields × Str)
  | [], inp, f => some (f, inp)
  | '%' :: spc :: rest, inp, f =>
    if spc = 'Y' then
      let p := signSplitPlus inp
      match readNatW 4 p.2 with
      | some (v, r) => runFmt rest r { f with y := some (p.1 * (v : Int)) }
      | none => none
    else if spc = 'y' then
      match readNatW 2 inp with
      | some (v, r) =>
        runFmt rest r { f with y := some (if v ≤ 68 then 2000 + (v : Int) else 1900 + (v : Int)) }
      | none => none
    else if spc = 'm' then
      match readNatW 2 inp with
      | some (v, r) => runFmt rest r { f with m := some v }
      | none => none
    else if spc = 'd' then
      match readNatW 2 inp with
      | some (v, r) => runFmt rest r { f with d := some v }
      | none => none
    else if spc = 'H' then
      match readNatW 2 inp with
      | some (v, r) => runFmt rest r { f with H := v }
      | none => none
    else if spc = 'M' then
      match readNatW 2 inp with
      | some (v, r) => runFmt rest r { f with M := v }
      | none => none
    else if spc = 'S' then
      match readNatW 2 inp with
      | some (v, r) => runFmt rest r { f with S := v }
      | none => none
    else if spc = 'z' then
      match inp with
      | c :: r =>
        if c = '+' ∨ c = '-' then
          let sgn : Int := if c = '-' then -1 else 1
          match readNatW 2 r with
          | some (hh, r1) =>
            let pm : Nat × Str :=
              match readNatW 2 r1 with
              | some (mm, r2) => (mm, r2)
              | none => (0, r1)
            runFmt rest pm.2 { f with offMin := sgn * ((hh : Int) * 60 + (pm.1 : Int)) }
          | none => none
        else none
      | [] => none
    else none
  | c :: rest, inp, f =>
    if isSpaceC c then runFmt rest (inp.dropWhile isSpaceC) f
    else
      match inp with
      | c2 :: ir => if c2 = c then runFmt rest ir f else none
      | [] => none

/-- Leap year in the proleptic Gregorian calendar. -/
def isLeapYear (y : Int) : Bool := (y % 4 == 0 && y % 100 != 0) || y % 400 == 0

/-- Number of days of a month (0 for an invalid month number). -/
def lastDayOfMonth (y : Int) (m : Nat) : Nat :=
  if m = 2 then (if isLeapYear y then 29 else 28)
  else if m = 4 ∨ m = 6 ∨ m = 9 ∨ m = 11 then 30
  else if 1 ≤ m ∧ m ≤ 12 then 31
  else 0

/-- Validation applied by the library after matching: all three date parts
present, the year in the date library's representable range, a valid
civil date, and a conventional time of day. -/
def fieldsOk (f : DTFields) : Bool :=
  match f.y, f.m, f.d with
  | some y, some m, some d =>
    decide (-32767 ≤ y ∧ y ≤ 32767 ∧ 1 ≤ m ∧ m ≤ 12 ∧ 1 ≤ d ∧
      d ≤ lastDayOfMonth y m ∧ f.H ≤ 23 ∧ f.M ≤ 59 ∧ f.S ≤ 59)
  | _, _, _ => false

/-- Days from 1970-01-01 of a civil date (the date library's sys_days,
Hinnant's days_from_civil algorithm; C++ integer division truncates toward
zero, written Int.tdiv here). -/
def daysFromCivil (y : Int) (m d : Nat) : Int :=
  let y2 : Int := if m ≤ 2 then y - 1 else y
  let era : Int := (if 0 ≤ y2 then y2 else y2 - 399).tdiv 400
  let yoe : Int := y2 - era * 400
  let doy : Int := (153 * (if 2 < m then (m : Int) - 3 else (m : Int) + 9) + 2).tdiv 5
                     + (d : Int) - 1
  let doe : Int := yoe * 365 + yoe.tdiv 4 - yoe.tdiv 100 + doy
  era * 146097 + doe - 719468

/-- Seconds since the epoch of validated fields (sys_days plus the time of
day, minus the %z offset). -/
def epochSecsOf (y : Int) (m d H M S : Nat) (offMin : Int) : Int :=
  daysFromCivil y m d * 86400 + (H : Int) * 3600 + (M : Int) * 60 + (S : Int) - offMin * 60

/-- The calendar primitive as the code consumes it: match the format
against the input and report seconds since the epoch on success.  This is
exactly what both TryParseFormat and DetectColumnType's try_format lambda
observe of in >> date::parse(fmt, tp). -/
def parseFmtSeconds (fmt inp : Str) : Option Int :=
  match runFmt fmt inp {} with
  | none => none
  | some (f, _) =>
    if fieldsOk f then
      match f.y, f.m, f.d with
      | some y, some m, some d => some (epochSecsOf y m d f.H f.M f.S f.offMin)
      | _, _, _ => none
    else none

/-- TryParseFormat (lines 96-112): on a successful calendar parse, convert
to nanoseconds, add the previously extracted fractional nanoseconds, and
return the total nanosecond count as seconds.  Exact in ℚ. -/
def TryParseFormat (base_str : Str) (fmt : Str) (fractional_ns : Int) : Option ℚ :=
  (parseFmtSeconds fmt base_str).map
    (fun secs => mkRat (secs * 1000000000 + fractional_ns) 1000000000)

/-! ## The fixed format table (lines 32-38) -/

/-- The seven unambiguous patterns, in their priority order. -/
def UNAMBIGUOUS_FORMATS : List Str :=
  ["%Y-%m-%dT%H:%M:%S".toList, "%Y-%m-%dT%H:%M:%S%z".toList,
   "%Y-%m-%dT%H:%M:%SZ".toList, "%Y-%m-%d %H:%M:%S".toList,
   "%Y-%m-%d %H:%M:%S%z".toList, "%Y-%m-%d".toList,
   "%Y/%m/%d %H:%M:%S".toList]

/-- The day-first slash pattern. -/
def FMT_DMY_SLASH : Str := "%d/%m/%Y %H:%M:%S".toList

/-- The month-first slash pattern. -/
def FMT_MDY_SLASH : Str := "%m/%d/%Y %H:%M:%S".toList

/-- The day-first dash pattern (the only dash variant in the code). -/
def FMT_DMY_DASH : Str := "%d-%m-%Y %H:%M:%S".toList

/-- The loop of AutoParseTimestamp over the format table (lines 295-301):
return the first successful TryParseFormat result. -/
def tryFormatsList : List Str → Str → Int → Option ℚ
  | [], _, _ => none
  | f :: rest, base, ns =>
    match TryParseFormat base f ns with
    | some r => some r
    | none => tryFormatsList rest base ns

/-- The loop of DetectColumnType over the format table (lines 436-444):
the first format whose parse succeeds. -/
def findFormatsList : List Str → Str → Option Str
  | [], _ => none
  | f :: rest, base =>
    if (parseFmtSeconds f base).isSome then some f else findFormatsList rest base

/-! ## AutoParser (AutoParseTimestamp, lines 261-325) -/

/-- The numeric fast path of AutoParseTimestamp (lines 270-289) inside its
try block.  some r means the function returned r; none means
std::stoll threw, the exception was swallowed, and control fell through to
the datetime formats. -/
def autoNumeric (trimmed : Str) : Option (Option ℚ) :=
  let num_info := CheckNumeric trimmed
  if num_info.is_number then
    if ¬num_info.has_decimal ∧ ¬num_info.has_exponent then
      match stoll trimmed with
      | some ts => some (some (EpochToSeconds ts (DetectEpochType ts)))
      | none => none
    else some (toDouble trimmed)
  else none

/-- The datetime fallback of AutoParseTimestamp (lines 292-324): the fixed
table first, then the slash-ambiguous branch (day-first or month-first by
the resolver), then the dash branch, which tries only the day-first
pattern and only when the resolver answers day-first. -/
def autoDatetime (base_str : Str) (fractional_ns : Int) : Option ℚ :=
  match tryFormatsList UNAMBIGUOUS_FORMATS base_str fractional_ns with
  | some r => some r
  | none =>
    let slashRes : Option ℚ :=
      if base_str.contains '/' && !base_str.isEmpty && !(base_str.headD ' ' == '2') then
        TryParseFormat base_str
          (if IsDayFirstFormat base_str '/' then FMT_DMY_SLASH else FMT_MDY_SLASH)
          fractional_ns
      else none
    match slashRes with
    | some r => some r
    | none =>
      if base_str.contains '-' && !base_str.isEmpty && !(base_str.headD ' ' == '2') then
        if IsDayFirstFormat base_str '-' then
          TryParseFormat base_str FMT_DMY_DASH fractional_ns
        else none
      else none

/-- AutoParseTimestamp (lines 261-325): trim; empty fails; try the numeric
path; on fall-through, split fractional seconds and try the datetime
formats. -/
def AutoParseTimestamp (str : Str) : Option ℚ :=
  let trimmed := Trim str
  if trimmed.isEmpty then none
  else
    match autoNumeric trimmed with
    | some r => r
    | none =>
      let be := ExtractFractionalSeconds trimmed
      autoDatetime be.1 be.2

/-! ## TypeDetector (DetectColumnType, lines 383-473) -/

/-- The hexadecimal-prefix test of DetectColumnType (line 395):
more than two characters, starting with 0x or 0X. -/
def hexCheckB (trimmed : Str) : Bool :=
  2 < trimmed.length &&
    (trimmed.headD ' ' == '0' && ((trimmed.drop 1).headD ' ' == 'x' ||
      (trimmed.drop 1).headD ' ' == 'X'))

/-- The datetime section of DetectColumnType (lines 424-472): first
matching fixed format wins; then the slash-ambiguous branch; then the
dash branch (day-first pattern only); otherwise STRING.  hf is the
has_fractional flag computed at line 426, which the fall-through STRING
result keeps. -/
def detectDatetime (base_str : Str) (hf : Bool) : ColumnTypeInfo :=
  match findFormatsList UNAMBIGUOUS_FORMATS base_str with
  | some f => { type := ColumnType.DATETIME, format := f, has_fractional := hf }
  | none =>
    let slashInfo : Option ColumnTypeInfo :=
      if base_str.contains '/' && !base_str.isEmpty && !(base_str.headD ' ' == '2') then
        let f := if IsDayFirstFormat base_str '/' then FMT_DMY_SLASH else FMT_MDY_SLASH
        if (parseFmtSeconds f base_str).isSome then
          some { type := ColumnType.DATETIME, format := f, has_fractional := hf }
        else none
      else none
    match slashInfo with
    | some i => i
    | none =>
      if base_str.contains '-' && !base_str.isEmpty && !(base_str.headD ' ' == '2') then
        if IsDayFirstFormat base_str '-' then
          if (parseFmtSeconds FMT_DMY_DASH base_str).isSome then
            { type := ColumnType.DATETIME, format := FMT_DMY_DASH, has_fractional := hf }
          else { type := ColumnType.STRING, has_fractional := hf }
        else { type := ColumnType.STRING, has_fractional := hf }
      else { type := ColumnType.STRING, has_fractional := hf }

/-- DetectColumnType (lines 383-473): empty → STRING; 0x-prefix → HEX;
numeric with a decimal marker → NUMBER; numeric otherwise → epoch
classification of the stoll value (overflow degrades to NUMBER);
otherwise the datetime section. -/
def DetectColumnType (str : Str) : ColumnTypeInfo :=
  let trimmed := Trim str
  if trimmed.isEmpty then { type := ColumnType.STRING }
  else if hexCheckB trimmed then { type := ColumnType.HEX }
  else
    let num_info := CheckNumeric trimmed
    if num_info.is_number then
      if num_info.has_decimal then { type := ColumnType.NUMBER }
      else
        match stoll trimmed with
        | some ts => { type := DetectEpochType ts }
        | none => { type := ColumnType.NUMBER }
    else
      let be := ExtractFractionalSeconds trimmed
      let hf : Bool := decide (0 < be.2) || decide (trimmed ≠ be.1)
      detectDatetime be.1 hf

/-! ## FastParser (ParseWithType, lines 475-519) -/

/-- ParseWithType (lines 475-519): re-apply a previously detected type.
Every parse failure (including a thrown std::stoll exception, caught at
line 515) yields none. -/
def ParseWithType (str : Str) (type_info : ColumnTypeInfo) : Option ℚ :=
  let trimmed := Trim str
  if trimmed.isEmpty then none
  else
    match type_info.type with
    | ColumnType.NUMBER => toDouble trimmed
    | ColumnType.HEX => (stollHex trimmed).map (fun v => mkRat v 1)
    | ColumnType.EPOCH_SECONDS => (stoll trimmed).map (fun ts => EpochToSeconds ts type_info.type)
    | ColumnType.EPOCH_MILLIS => (stoll trimmed).map (fun ts => EpochToSeconds ts type_info.type)
    | ColumnType.EPOCH_MICROS => (stoll trimmed).map (fun ts => EpochToSeconds ts type_info.type)
    | ColumnType.EPOCH_NANOS => (stoll trimmed).map (fun ts => EpochToSeconds ts type_info.type)
    | ColumnType.DATETIME =>
      let be := ExtractFractionalSeconds trimmed
      let ns : Int := if type_info.has_fractional then be.2 else 0
      TryParseFormat be.1 type_info.format ns
    | ColumnType.STRING => none

/-- Modelled from the spec: the reading of section 4.8 in which the
fractional-second splitter is re-run ONLY if has_fractional was recorded,
so that with has_fractional unset the raw trimmed value is handed to the
stored format unchanged.  Kept for comparison with ParseWithType, which
always runs the splitter and merely discards the nanoseconds. -/
def parseWithTypeDatetimeClaim (str : Str) (type_info : ColumnTypeInfo) : Option ℚ :=
  let trimmed := Trim str
  if trimmed.isEmpty then none
  else if type_info.has_fractional then
    let be := ExtractFractionalSeconds trimmed
    TryParseFormat be.1 type_info.format be.2
  else TryParseFormat trimmed type_info.format 0

/-! ## FormatParseTimestamp (lines 327-381) -/

/-- Index of the first occurrence of pat in a string
(std::string::find). -/
def findSubIdx (pat : Str) : Str → Option Nat
  | [] => if pat = [] then some 0 else none
  | c :: rest =>
    if pat.isPrefixOf (c :: rest) then some 0
    else (findSubIdx pat rest).map (fun i => i + 1)

/-- std::string::find(pat, start): none when start is past the end. -/
def findSubFrom (pat s : Str) (start : Nat) : Option Nat :=
  if s.length < start then none
  else (findSubIdx pat (s.drop start)).map (fun i => i + start)

/-- The replace_all lambda of FormatParseTimestamp (lines 362-369):
replace every occurrence, resuming the scan after the replacement. -/
def replaceAll (pat rep : Str) (s : Str) : Str :=
  match s with
  | [] => []
  | c :: rest =>
    if h : pat ≠ [] ∧ pat.isPrefixOf (c :: rest) then
      rep ++ replaceAll pat rep ((c :: rest).drop pat.length)
    else c :: replaceAll pat rep rest
termination_by s.length
decreasing_by
  · simp only [List.length_drop]
    have hp : 0 < pat.length := List.length_pos.mpr h.1
    simp only [List.length_cons]
    omega
  · simp only [List.length_cons]
    omega

/-- The Qt-token to strptime-token rewriting chain (lines 371-378). -/
def qtToStrptime (s : Str) : Str :=
  replaceAll "ss".toList "%S".toList
    (replaceAll "mm".toList "%M".toList
      (replaceAll "HH".toList "%H".toList
        (replaceAll "hh".toList "%H".toList
          (replaceAll "dd".toList "%d".toList
            (replaceAll "MM".toList "%m".toList
              (replaceAll "yy".toList "%y".toList
                (replaceAll "yyyy".toList "%Y".toList s)))))))

/-- FormatParseTimestamp (lines 327-381): trim; empty fails; strip a
Qt-style .zzz fractional marker from the format (and the fractional run
from the input) when both are present; rewrite the Qt tokens to strptime
tokens; parse.  When the .zzz marker sits at position 1 to 4 of the
format, the C++ computes the size_t expression zzz_pos - 5, which wraps
to a huge index, so the dot search finds nothing. -/
def FormatParseTimestamp (str forma : Str) : Option ℚ :=
  let trimmed := Trim str
  if trimmed.isEmpty then none
  else
    let stage :=
      match findSubFrom ".zzz".toList forma 0 with
      | none => (trimmed, forma, (0 : Int))
      | some zp =>
        let zStart := zp + 1
        let zCount := ((forma.drop zStart).takeWhile (fun c => c = 'z')).length
        let dotFound : Option Nat :=
          if zp = 0 then findSubFrom ['.'] trimmed 0
          else if zp < 5 then none
          else findSubFrom ['.'] trimmed (zp - 5)
        match dotFound with
        | none => (trimmed, forma, (0 : Int))
        | some _ =>
          let be := ExtractFractionalSeconds trimmed
          (be.1, forma.take zp ++ forma.drop (zStart + zCount), be.2)
    TryParseFormat stage.1 (qtToStrptime stage.2.1) stage.2.2

/-! ## Helper lemmas -/

theorem isDigitC_iff {c : Char} : isDigitC c = true ↔ 48 ≤ c.toNat ∧ c.toNat ≤ 57 := by
  simp [isDigitC]

theorem isSpaceC_iff {c : Char} :
    isSpaceC c = true ↔ c.toNat = 32 ∨ (9 ≤ c.toNat ∧ c.toNat ≤ 13) := by
  simp [isSpaceC]

theorem isSpaceC_of_isDigitC {c : Char} (h : isDigitC c = true) : isSpaceC c = false := by
  obtain ⟨h1, h2⟩ := isDigitC_iff.mp h
  rw [Bool.eq_false_iff]
  intro hs
  rcases isSpaceC_iff.mp hs with h3 | ⟨h3, h4⟩ <;> omega

theorem digit_ne_sign {c : Char} (h : isDigitC c = true) : c ≠ '-' ∧ c ≠ '+' := by
  obtain ⟨h1, _⟩ := isDigitC_iff.mp h
  constructor <;> (rintro rfl; exact absurd h1 (by decide))

theorem foldl_digits_lt (l : Str) (acc : Nat) (h : ∀ c ∈ l, isDigitC c = true) :
    l.foldl (fun a c => a * 10 + (c.toNat - 48)) acc < (acc + 1) * 10 ^ l.length := by
  induction l generalizing acc with
  | nil => simpa using Nat.lt_succ_self acc
  | cons c rest ih =>
    obtain ⟨_, hc2⟩ := isDigitC_iff.mp (h c (List.mem_cons_self c rest))
    have hrest : ∀ x ∈ rest, isDigitC x = true := fun x hx => h x (List.mem_cons_of_mem _ hx)
    have hstep := ih (acc * 10 + (c.toNat - 48)) hrest
    have hmul : (acc * 10 + (c.toNat - 48) + 1) * 10 ^ rest.length ≤
        ((acc + 1) * 10) * 10 ^ rest.length :=
      Nat.mul_le_mul_right _ (by omega)
    calc (c :: rest).foldl (fun a x => a * 10 + (x.toNat - 48)) acc
        = rest.foldl (fun a x => a * 10 + (x.toNat - 48)) (acc * 10 + (c.toNat - 48)) := by
          simp [List.foldl_cons]
      _ < (acc * 10 + (c.toNat - 48) + 1) * 10 ^ rest.length := hstep
      _ ≤ ((acc + 1) * 10) * 10 ^ rest.length := hmul
      _ = (acc + 1) * 10 ^ (c :: rest).length := by
          simp [List.length_cons, pow_succ]; ring

theorem digitsValNat_lt (l : Str) (h : ∀ c ∈ l, isDigitC c = true) :
    digitsValNat l < 10 ^ l.length := by
  simpa [digitsValNat] using foldl_digits_lt l 0 h

theorem takeWhile_eq_self_of_all {p : Char → Bool} {l : Str}
    (h : ∀ c ∈ l, p c = true) : l.takeWhile p = l := by
  induction l with
  | nil => rfl
  | cons c rest ih =>
    rw [List.takeWhile_cons, if_pos (h c (List.mem_cons_self c rest))]
    rw [ih fun x hx => h x (List.mem_cons_of_mem _ hx)]

theorem stoll_all_digits (l : Str) (h1 : l ≠ []) (hd : ∀ c ∈ l, isDigitC c = true)
    (hlen : l.length ≤ 18) : stoll l = some ((digitsValNat l : Int)) := by
  obtain ⟨c, rest, rfl⟩ := List.exists_cons_of_ne_nil h1
  have hc : isDigitC c = true := hd c (List.mem_cons_self c rest)
  have h2 : (c :: rest).dropWhile isSpaceC = c :: rest := by
    rw [List.dropWhile_cons, isSpaceC_of_isDigitC hc]; simp
  obtain ⟨hm, hp⟩ := digit_ne_sign hc
  have h3 : signSplitPlus (c :: rest) = (1, c :: rest) := by
    simp [signSplitPlus, hm, hp]
  have h4 : (c :: rest).takeWhile isDigitC = c :: rest := takeWhile_eq_self_of_all hd
  have hv : digitsValNat (c :: rest) < 10 ^ 18 :=
    lt_of_lt_of_le (digitsValNat_lt _ hd) (Nat.pow_le_pow_right (by norm_num) hlen)
  have hvi : ((digitsValNat (c :: rest) : Int)) < 10 ^ 18 := by exact_mod_cast hv
  have h63 : ((2 : Int) ^ 63) = 9223372036854775808 := by norm_num
  have h18 : ((10 : Int) ^ 18) = 1000000000000000000 := by norm_num
  have hvnn : (0 : Int) ≤ (digitsValNat (c :: rest) : Int) := Int.ofNat_nonneg _
  simp only [stoll, h2, h3, h4]
  rw [if_neg (by simp)]
  rw [if_neg (by rw [one_mul]; omega)]
  rw [one_mul]

theorem pad9_length (run : Str) : (pad9 run).length = 9 := by
  unfold pad9; split
  · simp only [List.length_append, List.length_replicate]; omega
  · simp only [List.length_take]; omega

theorem pad9_digits {run : Str} (h : ∀ c ∈ run, isDigitC c = true) :
    ∀ c ∈ pad9 run, isDigitC c = true := by
  unfold pad9; split
  · intro c hc
    rcases List.mem_append.mp hc with h1 | h2
    · exact h c h1
    · rw [List.eq_of_mem_replicate h2]; decide
  · intro c hc
    exact h c (List.take_subset _ _ hc)

theorem pad9_ne_nil (run : Str) : pad9 run ≠ [] := by
  intro hn
  have := pad9_length run
  rw [hn] at this
  simp at this

theorem stoll_pad9 {run : Str} (h : ∀ c ∈ run, isDigitC c = true) :
    stoll (pad9 run) = some ((digitsValNat (pad9 run) : Int)) :=
  stoll_all_digits _ (pad9_ne_nil run) (pad9_digits h) (by rw [pad9_length]; omega)

theorem padTrunc9Val_bounds {run : Str} (h : ∀ c ∈ run, isDigitC c = true) :
    0 ≤ padTrunc9Val run ∧ padTrunc9Val run ≤ 999999999 := by
  have hlt := digitsValNat_lt (pad9 run) (pad9_digits h)
  rw [pad9_length] at hlt
  have hlt2 : digitsValNat (pad9 run) ≤ 999999999 := by
    have : (10 : Nat) ^ 9 = 1000000000 := by norm_num
    omega
  constructor
  · exact Int.ofNat_nonneg _
  · unfold padTrunc9Val
    exact_mod_cast hlt2

theorem tryFormatsList_eq_find (fmts : List Str) (base : Str) (ns : Int) :
    tryFormatsList fmts base ns =
      match findFormatsList fmts base with
      | some f => TryParseFormat base f ns
      | none => none := by
  induction fmts with
  | nil => rfl
  | cons f rest ih =>
    simp only [tryFormatsList, findFormatsList]
    cases hp : parseFmtSeconds f base with
    | none =>
      have hply : TryParseFormat base f ns = none := by simp [TryParseFormat, hp]
      simp [hply, ih, hp]
    | some v =>
      have hply : TryParseFormat base f ns =
          some (mkRat (v * 1000000000 + ns) 1000000000) := by simp [TryParseFormat, hp]
      simp [hply, hp]

theorem findFormats_mem_isSome {fmts : List Str} {base f : Str}
    (h : findFormatsList fmts base = some f) : (parseFmtSeconds f base).isSome = true := by
  induction fmts with
  | nil => cases h
  | cons g rest ih =>
    simp only [findFormatsList] at h
    by_cases hg : (parseFmtSeconds g base).isSome
    · rw [if_pos hg] at h
      cases h
      exact hg
    · rw [if_neg hg] at h
      exact ih h

theorem autoNumeric_of_not_number {t : Str} (h : (CheckNumeric t).is_number = false) :
    autoNumeric t = none := by
  simp [autoNumeric, h]

theorem trim_eq_nil_of_ws {s : Str} (h : ∀ c ∈ s, isTrimWs c = true) : Trim s = [] := by
  have h1 : s.dropWhile isTrimWs = [] := List.dropWhile_eq_nil_iff.mpr h
  simp [Trim, h1]

theorem checkNumericOpt_isSome {s : Str} (h : s ≠ []) : (CheckNumericOpt s).isSome = true := by
  simp only [CheckNumericOpt]
  split
  · cases hl : s.getLast? with
    | none => exact absurd (List.getLast?_eq_none_iff.mp hl) h
    | some c =>
      split
      · simp_all
      · split <;> simp
  · simp

/-- The digit-accumulation loop of IsDayFirstFormat computes the value of
the maximal leading digit run and leaves the rest of the string. -/
theorem scanNum_eq (s : Str) (acc : Nat) :
    scanNum s acc =
      (List.foldl (fun a c => a * 10 + (c.toNat - 48)) acc (s.takeWhile isDigitC),
        s.dropWhile isDigitC) := by
  induction s generalizing acc with
  | nil => rfl
  | cons c rest ih =>
    by_cases hc : isDigitC c = true
    · simp [scanNum, hc, List.takeWhile_cons, List.dropWhile_cons, ih]
    · simp [scanNum, hc, List.takeWhile_cons, List.dropWhile_cons]

/-! ## Claims -/

/-- Claim C7: for every integer t strictly between EPOCH_FIRST and
EPOCH_LAST, DetectEpochType classifies it as epoch seconds and
EpochToSeconds returns it unchanged; in general DetectEpochType tests the
nanosecond, microsecond, millisecond and second windows in that order and
returns NUMBER when the value lies in none of them. -/
theorem claim_c7_epoch_windows (t : Int) :
    ((EPOCH_FIRST < t ∧ t < EPOCH_LAST) →
      DetectEpochType t = ColumnType.EPOCH_SECONDS ∧
      EpochToSeconds t ColumnType.EPOCH_SECONDS = (t : ℚ)) ∧
    DetectEpochType t =
      (if inEpochWindowB t 1000000000 then ColumnType.EPOCH_NANOS
       else if inEpochWindowB t 1000000 then ColumnType.EPOCH_MICROS
       else if inEpochWindowB t 1000 then ColumnType.EPOCH_MILLIS
       else if inEpochWindowB t 1 then ColumnType.EPOCH_SECONDS
       else ColumnType.NUMBER) := by
  constructor
  · rintro ⟨h1, h2⟩
    simp only [EPOCH_FIRST, EPOCH_LAST] at h1 h2
    constructor
    · simp only [DetectEpochType, EPOCH_FIRST, EPOCH_LAST]
      rw [if_neg (by omega), if_neg (by omega), if_neg (by omega), if_pos (by omega)]
    · show mkRat t 1 = (t : ℚ)
      exact Rat.mkRat_one t
  · simp only [DetectEpochType, inEpochWindowB, decide_eq_true_eq, mul_one]

/-- Witness for C7 at t = 1700000000. -/
theorem claim_c7_witness :
    DetectEpochType 1700000000 = ColumnType.EPOCH_SECONDS ∧
    EpochToSeconds 1700000000 ColumnType.EPOCH_SECONDS = ((1700000000 : Int) : ℚ) :=
  (claim_c7_epoch_windows 1700000000).1 (by decide)

/-- Claim C4 (amended): IsDayFirstFormat answers day-first when the first
field lies in (12, 31], month-first when it does not and the second field
lies in (12, 31], and day-first by default; the claim's version without
the upper bound 31 is refuted by the counterexample. -/
theorem claim_c4_dayfirst :
    (∀ (s : Str) (sep : Char),
      IsDayFirstFormat s sep =
        (if 12 < (dateFields s sep).1 ∧ (dateFields s sep).1 ≤ 31 then true
         else if 12 < (dateFields s sep).2 ∧ (dateFields s sep).2 ≤ 31 then false
         else true)) ∧
    IsDayFirstFormat "13/05/2024".toList '/' = true ∧
    IsDayFirstFormat "05/13/2024".toList '/' = false ∧
    IsDayFirstFormat "05/06/2024".toList '/' = true := by
  refine ⟨?_, by decide, by decide, by decide⟩
  intro s sep
  simp only [IsDayFirstFormat, dateFields, scanNum_eq, digitsValNat]
  rfl

/-- Counterexample to C4 as stated: the first field of "32/13/2024" is
32 > 12, yet IsDayFirstFormat answers false (the code only accepts a
first field of at most 31 as a day). -/
theorem claim_c4_counterexample :
    (dateFields "32/13/2024".toList '/').1 = 32 ∧ 12 < 32 ∧
    IsDayFirstFormat "32/13/2024".toList '/' = false := by decide

/-- Claim C8: ExtractFractionalSeconds always returns a nanosecond count
in [0, 999999999], equal to the digit run after the last dot padded or
truncated to nine digits whenever a fractional suffix is recognized, and
returns the input unchanged with zero nanoseconds otherwise; with the
three concrete examples from the spec. -/
theorem claim_c8_fractional_split :
    (∀ input : Str,
      0 ≤ (ExtractFractionalSeconds input).2 ∧
      (ExtractFractionalSeconds input).2 ≤ 999999999 ∧
      (ExtractFractionalSeconds input).2 =
        (if efsNoFrac input then 0 else padTrunc9Val (fracRunOf input)) ∧
      (if efsNoFrac input then ExtractFractionalSeconds input = (input, 0) else True)) ∧
    ExtractFractionalSeconds "12:30:45.5".toList = ("12:30:45".toList, 500000000) ∧
    ExtractFractionalSeconds "12:30:45".toList = ("12:30:45".toList, 0) ∧
    ExtractFractionalSeconds "2024.01.01".toList = ("2024.01.01".toList, 0) := by
  refine ⟨?_, by decide, by decide, by decide⟩
  intro input
  unfold ExtractFractionalSeconds efsNoFrac fracRunOf
  cases hd : rfindIdx '.' input with
  | none => cases hc : rfindIdx ':' input <;> simp
  | some dot =>
    cases hc : rfindIdx ':' input with
    | none => simp
    | some colon =>
      by_cases hdc : dot ≤ colon
      · simp [hdc]
      · by_cases hre : (input.drop (dot + 1)).takeWhile isDigitC = []
        · simp [hdc, hre]
        · have hdig : ∀ c ∈ (input.drop (dot + 1)).takeWhile isDigitC, isDigitC c = true :=
            fun c hcm => List.mem_takeWhile_imp hcm
          have hb := padTrunc9Val_bounds hdig
          have hs := stoll_pad9 hdig
          simp only [hdc, hre, if_neg, if_false, List.isEmpty_iff, decide_eq_true_eq]
          simp [hdc, hre, hs, padTrunc9Val, hb.1, hb.2]
          have hb2 := hb.2
          unfold padTrunc9Val at hb2
          exact_mod_cast hb2

/-- Claim C10: the scan of CheckNumeric followed by the unconditional
str.back() access is in bounds on every nonempty string, and both call
sites only invoke it on the trimmed input after guarding against
emptiness, so the out-of-bounds none case never surfaces there. -/
theorem claim_c10_checknumeric_back (s : Str) (h : Trim s ≠ []) :
    CheckNumericOpt (Trim s) = some (CheckNumeric (Trim s)) := by
  obtain ⟨i, hi⟩ := Option.isSome_iff_exists.mp (checkNumericOpt_isSome h)
  rw [hi]
  simp [CheckNumeric, hi]

/-- Witness for C10 at the input "42". -/
theorem claim_c10_witness :
    CheckNumericOpt (Trim "42".toList) = some (CheckNumeric (Trim "42".toList)) :=
  claim_c10_checknumeric_back ("42".toList) (by decide)

/-- Claim C9: a whitespace-only (in particular empty) input yields type
STRING from DetectColumnType and none from every parsing entry point; in
this total embedding every C++ exception is modelled as a caught-and-
converted none, so no entry point propagates a failure. -/
theorem claim_c9_entry_points (s : Str) (h : ∀ c ∈ s, isTrimWs c = true) :
    (DetectColumnType s).type = ColumnType.STRING ∧
    AutoParseTimestamp s = none ∧
    (∀ info : ColumnTypeInfo, ParseWithType s info = none) ∧
    (∀ forma : Str, FormatParseTimestamp s forma = none) := by
  have ht : Trim s = [] := trim_eq_nil_of_ws h
  refine ⟨?_, ?_, ?_, ?_⟩
  · simp [DetectColumnType, ht]
  · simp [AutoParseTimestamp, ht]
  · intro info
    simp [ParseWithType, ht]
  · intro forma
    simp [FormatParseTimestamp, ht]

/-- Witness for C9 at the two-space input. -/
theorem claim_c9_witness :
    (DetectColumnType "  ".toList).type = ColumnType.STRING ∧
    AutoParseTimestamp "  ".toList = none ∧
    ParseWithType "  ".toList {} = none ∧
    FormatParseTimestamp "  ".toList "yyyy-MM-dd".toList = none :=
  have h := claim_c9_entry_points ("  ".toList) (by decide)
  ⟨h.1, h.2.1, h.2.2.1 {}, h.2.2.2 _⟩

/-- Claim C1 (amended): the detect-then-parse round trip agrees with
AutoParseTimestamp for the five canonical strings "42", "3.14",
"1718000000", "2024-01-15T10:30:00" and "not a date"; the sixth string
"0x1F" of the claim is excluded, because ParseWithType has a hex path
while AutoParseTimestamp does not (see the counterexample). -/
theorem claim_c1_roundtrip :
    ParseWithType "42".toList (DetectColumnType "42".toList) =
      AutoParseTimestamp "42".toList ∧
    ParseWithType "3.14".toList (DetectColumnType "3.14".toList) =
      AutoParseTimestamp "3.14".toList ∧
    ParseWithType "1718000000".toList (DetectColumnType "1718000000".toList) =
      AutoParseTimestamp "1718000000".toList ∧
    ParseWithType "2024-01-15T10:30:00".toList
        (DetectColumnType "2024-01-15T10:30:00".toList) =
      AutoParseTimestamp "2024-01-15T10:30:00".toList ∧
    ParseWithType "not a date".toList (DetectColumnType "not a date".toList) =
      AutoParseTimestamp "not a date".toList :=
  ⟨by decide, by decide, by decide, by decide, by decide⟩

/-- Counterexample to C1 as stated: on "0x1F" the detect-then-parse path
yields 31 (DetectColumnType says HEX and ParseWithType parses base 16)
while AutoParseTimestamp, which has no hexadecimal branch, yields none. -/
theorem claim_c1_counterexample :
    ParseWithType "0x1F".toList (DetectColumnType "0x1F".toList) = some 31 ∧
    AutoParseTimestamp "0x1F".toList = none := by decide

/-- Claim C2 (amended): on a trimmed nonempty non-hex numeric string,
DetectColumnType returns NUMBER when a decimal marker is present, and
otherwise hands the stoll value to the epoch classifier (falling back to
NUMBER when stoll fails) — even when the string carries an exponent,
since the code tests only has_decimal (see the counterexample). -/
theorem claim_c2_detect_numeric (s : Str) (hts : Trim s = s) (hne : s ≠ [])
    (hhex : hexCheckB s = false) (hnum : (CheckNumeric s).is_number = true) :
    (DetectColumnType s).type =
      (if (CheckNumeric s).has_decimal then ColumnType.NUMBER
       else ((stoll s).map DetectEpochType).getD ColumnType.NUMBER) := by
  have hie : s.isEmpty = false := by simpa [List.isEmpty_iff] using hne
  simp only [DetectColumnType, hts, hie, hhex, hnum]
  by_cases hdec : (CheckNumeric s).has_decimal <;>
    simp [hdec] <;> cases hstoll : stoll s <;> simp [hstoll]

/-- Witness for C2 at the input "3.14". -/
theorem claim_c2_witness :
    (DetectColumnType "3.14".toList).type =
      (if (CheckNumeric "3.14".toList).has_decimal then ColumnType.NUMBER
       else ((stoll "3.14".toList).map DetectEpochType).getD ColumnType.NUMBER) :=
  claim_c2_detect_numeric ("3.14".toList) (by decide) (by decide) (by decide) (by decide)

/-- Counterexample to C2 as stated: "1700000000e0" is numeric with an
exponent and no decimal point, yet DetectColumnType runs the epoch
classifier on the stoll prefix 1700000000 and returns EPOCH_SECONDS
instead of NUMBER. -/
theorem claim_c2_counterexample :
    Trim "1700000000e0".toList = "1700000000e0".toList ∧
    hexCheckB "1700000000e0".toList = false ∧
    (CheckNumeric "1700000000e0".toList).is_number = true ∧
    (CheckNumeric "1700000000e0".toList).has_exponent = true ∧
    (CheckNumeric "1700000000e0".toList).has_decimal = false ∧
    (DetectColumnType "1700000000e0".toList).type = ColumnType.EPOCH_SECONDS := by decide

/-- Claim C5 (amended): on a DATETIME ColumnTypeInfo, ParseWithType always
runs the fractional-second splitter on the trimmed value, feeds its base
string to the stored format only, and keeps the extracted nanoseconds only
if has_fractional was recorded (discarding them otherwise); on a STRING
ColumnTypeInfo it always returns none. -/
theorem claim_c5_fastparse_datetime (s forma : Str) (hf : Bool) :
    ParseWithType s { type := ColumnType.DATETIME, format := forma, has_fractional := hf } =
      (if (Trim s).isEmpty then none
       else TryParseFormat (ExtractFractionalSeconds (Trim s)).1 forma
              (if hf then (ExtractFractionalSeconds (Trim s)).2 else 0)) ∧
    ParseWithType s { type := ColumnType.STRING, format := forma, has_fractional := hf } =
      none := by
  constructor
  · by_cases he : (Trim s).isEmpty <;> simp [ParseWithType, he]
  · by_cases he : (Trim s).isEmpty <;> simp [ParseWithType, he]

/-- Counterexample to C5 as stated ("re-runs the splitter only if
has_fractional was recorded"): with has_fractional unset and the stored
format "%Y-%m-%dT%H:%M:%S%z", the code still strips the fractional run
".5" before matching, so it parses "2024-01-15T10:30:45.5+0500", while
the claim's reading (splitter skipped) fails on it. -/
theorem claim_c5_counterexample :
    (ParseWithType "2024-01-15T10:30:45.5+0500".toList
        { type := ColumnType.DATETIME, format := "%Y-%m-%dT%H:%M:%S%z".toList,
          has_fractional := false }).isSome = true ∧
    parseWithTypeDatetimeClaim "2024-01-15T10:30:45.5+0500".toList
        { type := ColumnType.DATETIME, format := "%Y-%m-%dT%H:%M:%S%z".toList,
          has_fractional := false } = none := by decide

/-- Claim C6 (amended): when the numeric path declines, both entry points
walk the fixed format table in its priority order and commit to the first
format whose calendar parse succeeds, never attempting a later one; full
consumption of the base string is NOT required for a pattern to succeed
(see the counterexample). -/
theorem claim_c6_format_table (s f : Str) (hne : Trim s ≠ [])
    (hnum : (CheckNumeric (Trim s)).is_number = false)
    (hhex : hexCheckB (Trim s) = false)
    (hfind : findFormatsList UNAMBIGUOUS_FORMATS (ExtractFractionalSeconds (Trim s)).1 =
      some f) :
    AutoParseTimestamp s =
      TryParseFormat (ExtractFractionalSeconds (Trim s)).1 f
        (ExtractFractionalSeconds (Trim s)).2 ∧
    DetectColumnType s =
      { type := ColumnType.DATETIME, format := f,
        has_fractional := decide (0 < (ExtractFractionalSeconds (Trim s)).2) ||
          decide (Trim s ≠ (ExtractFractionalSeconds (Trim s)).1) } := by
  have hie : (Trim s).isEmpty = false := by simpa [List.isEmpty_iff] using hne
  obtain ⟨w, hw⟩ := Option.isSome_iff_exists.mp (findFormats_mem_isSome hfind)
  have hv : TryParseFormat (ExtractFractionalSeconds (Trim s)).1 f
      (ExtractFractionalSeconds (Trim s)).2 =
      some (mkRat (w * 1000000000 + (ExtractFractionalSeconds (Trim s)).2) 1000000000) := by
    simp [TryParseFormat, hw]
  constructor
  · simp only [AutoParseTimestamp, hie, Bool.false_eq_true, if_false,
      autoNumeric_of_not_number hnum]
    simp only [autoDatetime, tryFormatsList_eq_find, hfind]
    rw [hv]
  · simp only [DetectColumnType, hie, Bool.false_eq_true, if_false, hhex, hnum]
    simp only [detectDatetime, hfind]

/-- Witness for C6 at "2024-01-15T10:30:00", matched by the first table
entry. -/
theorem claim_c6_witness :
    AutoParseTimestamp "2024-01-15T10:30:00".toList =
      TryParseFormat (ExtractFractionalSeconds (Trim "2024-01-15T10:30:00".toList)).1
        "%Y-%m-%dT%H:%M:%S".toList
        (ExtractFractionalSeconds (Trim "2024-01-15T10:30:00".toList)).2 ∧
    DetectColumnType "2024-01-15T10:30:00".toList =
      { type := ColumnType.DATETIME, format := "%Y-%m-%dT%H:%M:%S".toList,
        has_fractional :=
          decide (0 < (ExtractFractionalSeconds (Trim "2024-01-15T10:30:00".toList)).2) ||
          decide (Trim "2024-01-15T10:30:00".toList ≠
            (ExtractFractionalSeconds (Trim "2024-01-15T10:30:00".toList)).1) } :=
  claim_c6_format_table ("2024-01-15T10:30:00".toList) ("%Y-%m-%dT%H:%M:%S".toList)
    (by decide) (by decide) (by decide) (by decide)

/-- Counterexample to C6 as stated: on the base string
"2024-01-15T10:30:00x" the first pattern matches while leaving the suffix
"x" unconsumed, and both the calendar primitive and the full pipeline
treat that as success — a pattern does not need to consume the full base
string. -/
theorem claim_c6_counterexample :
    (runFmt "%Y-%m-%dT%H:%M:%S".toList "2024-01-15T10:30:00x".toList {}).map
        (fun p => p.2) = some ['x'] ∧
    (parseFmtSeconds "%Y-%m-%dT%H:%M:%S".toList "2024-01-15T10:30:00x".toList).isSome =
      true ∧
    AutoParseTimestamp "2024-01-15T10:30:00x".toList =
      TryParseFormat "2024-01-15T10:30:00x".toList "%Y-%m-%dT%H:%M:%S".toList 0 ∧
    (AutoParseTimestamp "2024-01-15T10:30:00x".toList).isSome = true := by decide

/-- Claim C3 (amended): for a '-'-separated base string not beginning with
'2' (and without '/') on which every unambiguous pattern fails, the code
consults the resolver and then tries ONLY the day-first dash pattern, and
only when the resolver answers day-first; when the resolver answers
month-first, no dash pattern is attempted at all — there is no month-first
dash variant (see the counterexample). -/
theorem claim_c3_dash_resolver (s : Str) (hts : Trim s = s) (hne : s ≠ [])
    (hhex : hexCheckB s = false)
    (hnum : (CheckNumeric s).is_number = false)
    (hfind : findFormatsList UNAMBIGUOUS_FORMATS (ExtractFractionalSeconds s).1 = none)
    (hslash : (ExtractFractionalSeconds s).1.contains '/' = false)
    (hdash : (ExtractFractionalSeconds s).1.contains '-' = true)
    (hhead : ((ExtractFractionalSeconds s).1.headD ' ' == '2') = false) :
    AutoParseTimestamp s =
      (if IsDayFirstFormat (ExtractFractionalSeconds s).1 '-' then
        TryParseFormat (ExtractFractionalSeconds s).1 FMT_DMY_DASH
          (ExtractFractionalSeconds s).2
       else none) ∧
    DetectColumnType s =
      (if IsDayFirstFormat (ExtractFractionalSeconds s).1 '-' then
        (if (parseFmtSeconds FMT_DMY_DASH (ExtractFractionalSeconds s).1).isSome then
          { type := ColumnType.DATETIME, format := FMT_DMY_DASH,
            has_fractional := decide (0 < (ExtractFractionalSeconds s).2) ||
              decide (s ≠ (ExtractFractionalSeconds s).1) }
         else
          { type := ColumnType.STRING,
            has_fractional := decide (0 < (ExtractFractionalSeconds s).2) ||
              decide (s ≠ (ExtractFractionalSeconds s).1) })
       else
        { type := ColumnType.STRING,
          has_fractional := decide (0 < (ExtractFractionalSeconds s).2) ||
            decide (s ≠ (ExtractFractionalSeconds s).1) }) := by
  have hie : s.isEmpty = false := by simpa [List.isEmpty_iff] using hne
  have hbne : (ExtractFractionalSeconds s).1.isEmpty = false := by
    cases hb : (ExtractFractionalSeconds s).1 with
    | nil => rw [hb] at hdash; simp at hdash
    | cons c r => simp
  have hfindT : tryFormatsList UNAMBIGUOUS_FORMATS (ExtractFractionalSeconds s).1
      (ExtractFractionalSeconds s).2 = none := by
    rw [tryFormatsList_eq_find, hfind]
  constructor
  · simp only [AutoParseTimestamp, hts, hie, Bool.false_eq_true, if_false,
      autoNumeric_of_not_number hnum]
    simp only [autoDatetime, hfindT, hslash, hdash, hbne, hhead]
    simp
  · simp only [DetectColumnType, hts, hie, Bool.false_eq_true, if_false, hhex, hnum]
    simp only [detectDatetime, hfind, hslash, hdash, hbne, hhead]
    simp

/-- Witness for C3 at "13-13-2024 10:00:00": the resolver answers
day-first (first field 13 > 12), the day-first dash pattern is attempted
and fails (month 13), so both entry points fall through. -/
theorem claim_c3_witness :
    AutoParseTimestamp "13-13-2024 10:00:00".toList =
      (if IsDayFirstFormat (ExtractFractionalSeconds "13-13-2024 10:00:00".toList).1 '-' then
        TryParseFormat (ExtractFractionalSeconds "13-13-2024 10:00:00".toList).1 FMT_DMY_DASH
          (ExtractFractionalSeconds "13-13-2024 10:00:00".toList).2
       else none) ∧
    DetectColumnType "13-13-2024 10:00:00".toList =
      (if IsDayFirstFormat (ExtractFractionalSeconds "13-13-2024 10:00:00".toList).1 '-' then
        (if (parseFmtSeconds FMT_DMY_DASH
            (ExtractFractionalSeconds "13-13-2024 10:00:00".toList).1).isSome then
          { type := ColumnType.DATETIME, format := FMT_DMY_DASH,
            has_fractional :=
              decide (0 < (ExtractFractionalSeconds "13-13-2024 10:00:00".toList).2) ||
              decide ("13-13-2024 10:00:00".toList ≠
                (ExtractFractionalSeconds "13-13-2024 10:00:00".toList).1) }
         else
          { type := ColumnType.STRING,
            has_fractional :=
              decide (0 < (ExtractFractionalSeconds "13-13-2024 10:00:00".toList).2) ||
              decide ("13-13-2024 10:00:00".toList ≠
                (ExtractFractionalSeconds "13-13-2024 10:00:00".toList).1) })
       else
        { type := ColumnType.STRING,
          has_fractional :=
            decide (0 < (ExtractFractionalSeconds "13-13-2024 10:00:00".toList).2) ||
            decide ("13-13-2024 10:00:00".toList ≠
              (ExtractFractionalSeconds "13-13-2024 10:00:00".toList).1) }) :=
  claim_c3_dash_resolver ("13-13-2024 10:00:00".toList) (by decide) (by decide)
    (by decide) (by decide) (by decide) (by decide) (by decide) (by decide)

/-- Counterexample to C3 as stated: "05-13-2024 10:00:00" fails every
unambiguous pattern, the resolver answers month-first (second field
13 > 12), and the claim promises an attempt with the month-first pattern
m-d-Y — which would succeed — yet the code tries nothing and both entry
points fail. -/
theorem claim_c3_counterexample :
    IsDayFirstFormat "05-13-2024 10:00:00".toList '-' = false ∧
    (TryParseFormat "05-13-2024 10:00:00".toList "%m-%d-%Y %H:%M:%S".toList 0).isSome =
      true ∧
    AutoParseTimestamp "05-13-2024 10:00:00".toList = none ∧
    (DetectColumnType "05-13-2024 10:00:00".toList).type = ColumnType.STRING := by decide

end PJ.CSV
